import Mathlib

/-!
# Verification of the FRAM SPI transaction decoder (`FRAM.py`)

A shallow embedding of the decoder: the command tables, Python's
`int(s, 16)` hex parsing, Python's `f"{n:0wX}"` formatting, the
`hex_to_ascii` renderer, `generate_descriptions`, and the row-pairing
loop of `process_pairs`.  Python strings are Lean `String`s, CSV rows are
`List String`, the op-code is an unbounded `Int` (as Python's `int`),
and the two dictionary accesses that could raise `KeyError` in Python are
modelled by an `Option` result of `generate_descriptions`.
-/

namespace FRAM

/-! ## Python `int(s, 16)` -/

/-- Hexadecimal value of a single character, as accepted by Python's
`int(_, 16)` (both cases). -/
def hexVal? (c : Char) : Option Nat :=
  if '0' ≤ c ∧ c ≤ '9' then some (c.toNat - '0'.toNat)
  else if 'a' ≤ c ∧ c ≤ 'f' then some (c.toNat - 'a'.toNat + 10)
  else if 'A' ≤ c ∧ c ≤ 'F' then some (c.toNat - 'A'.toNat + 10)
  else none

/-- Digit-string scanner for `int(_, 16)`: `uOk` records whether an
underscore is permitted at the current position (after a digit, or right
after a `0x` prefix), `seen` whether at least one digit has been read.
A valid digit string ends on a digit and contains at least one digit. -/
def parseHexDigits : List Char → Nat → Bool → Bool → Option Nat
  | [], acc, uOk, seen => if uOk && seen then some acc else none
  | c :: rest, acc, uOk, seen =>
    match hexVal? c with
    | some v => parseHexDigits rest (acc * 16 + v) true true
    | none =>
      if c = '_' ∧ uOk then parseHexDigits rest acc false seen else none

/-- Unsigned part of `int(s, 16)`: an optional `0x`/`0X` prefix followed
by hex digits with optional single underscores between digits (an
underscore is also allowed directly after the prefix). -/
def parseUnsignedHex (cs : List Char) : Option Nat :=
  match cs with
  | '0' :: x :: rest =>
    if x = 'x' ∨ x = 'X' then parseHexDigits rest 0 true false
    else parseHexDigits ('0' :: x :: rest) 0 false false
  | _ => parseHexDigits cs 0 false false

/-- The whitespace characters `int()` strips (ASCII). -/
def isPyWhitespace (c : Char) : Bool :=
  c = ' ' || c = '\t' || c = '\n' || c = '\r' || c = '\x0b' || c = '\x0c'

/-- Python's `int(s, 16)`: strip surrounding whitespace, optional single
sign, optional `0x`/`0X` prefix, hex digits.  `none` models the
`ValueError` that the decoder catches. -/
def int16? (s : String) : Option Int :=
  let cs := ((s.toList.dropWhile isPyWhitespace).reverse.dropWhile
    isPyWhitespace).reverse
  match cs with
  | '+' :: rest => (parseUnsignedHex rest).map fun n => (n : Int)
  | '-' :: rest => (parseUnsignedHex rest).map fun n => -(n : Int)
  | _ => (parseUnsignedHex cs).map fun n => (n : Int)

/-! ## Python `f"{n:0wX}"` -/

/-- Uppercase hex digit for `n % 16`. -/
def hexDigitChar (n : Nat) : Char :=
  if n < 10 then Char.ofNat ('0'.toNat + n)
  else Char.ofNat ('A'.toNat + (n - 10))

/-- Fuel-indexed most-significant-first hex digit expansion; `n + 1`
fuel always suffices for the numeral `n`. -/
def natToHexAux : Nat → Nat → List Char → List Char
  | 0, _, acc => acc
  | fuel + 1, n, acc =>
    if n < 16 then hexDigitChar (n % 16) :: acc
    else natToHexAux fuel (n / 16) (hexDigitChar (n % 16) :: acc)

/-- Minimal-width uppercase hex digits of a natural number. -/
def natToHexChars (n : Nat) : List Char :=
  natToHexAux (n + 1) n []

/-- Left-pad a digit string with `'0'` to width `w`. -/
def padLeftZeros (w : Nat) (s : List Char) : List Char :=
  List.replicate (w - s.length) '0' ++ s

/-- Python's `f"{n:0wX}"`: zero-padded uppercase hex of minimum total
width `w`; for a negative number the sign counts against the width
(`f"{-1:02X}" = "-1"`). -/
def formatX (w : Nat) (n : Int) : String :=
  if n < 0 then String.mk ('-' :: padLeftZeros (w - 1) (natToHexChars n.natAbs))
  else String.mk (padLeftZeros w (natToHexChars n.natAbs))

/-! ## The command tables (`commands`, `command_info`,
`command_descriptions`) -/

/-- Metadata of one command (`command_info` row). -/
structure CmdInfo where
  command_length : Nat
  has_read_data : Bool
  has_write_data : Bool
  deriving DecidableEq, Repr

/-- `commands`: op-code → command-name dictionary lookup. -/
def commands_get (op : Int) : Option String :=
  if op = 0x06 then some "WREN"
  else if op = 0x04 then some "WRDI"
  else if op = 0xB9 then some "SLEEP"
  else if op = 0x05 then some "RDSR"
  else if op = 0x01 then some "WRSR"
  else if op = 0x9F then some "RDID"
  else if op = 0x03 then some "READ"
  else if op = 0x02 then some "WRITE"
  else if op = 0x0B then some "FSTRD"
  else none

/-- `command_info`: command-name → metadata dictionary lookup
(`none` models a `KeyError`). -/
def command_info_get (c : String) : Option CmdInfo :=
  if c = "WREN" then some ⟨1, false, false⟩
  else if c = "WRDI" then some ⟨1, false, false⟩
  else if c = "SLEEP" then some ⟨1, false, false⟩
  else if c = "RDSR" then some ⟨1, true, false⟩
  else if c = "WRSR" then some ⟨2, false, false⟩
  else if c = "RDID" then some ⟨1, true, false⟩
  else if c = "READ" then some ⟨4, true, false⟩
  else if c = "WRITE" then some ⟨4, false, true⟩
  else if c = "FSTRD" then some ⟨5, true, false⟩
  else none

/-- `command_descriptions`: command-name → generic description
(`none` models a `KeyError`). -/
def command_descriptions_get (c : String) : Option String :=
  if c = "WREN" then some "Set Write Enable Latch"
  else if c = "WRDI" then some "Reset Write Enable Latch"
  else if c = "SLEEP" then some "Enter Sleep Mode"
  else if c = "RDSR" then some "Read Status Register"
  else if c = "WRSR" then some "Write Status Register"
  else if c = "RDID" then some "Read Device ID"
  else if c = "READ" then some "Read Memory"
  else if c = "WRITE" then some "Write Memory"
  else if c = "FSTRD" then some "Fast Read Memory"
  else none

/-! ## `hex_to_ascii` -/

/-- Body of the `hex_to_ascii` loop for one byte: printable ASCII
values [32, 126] become the character, everything else (including a
parse failure) is passed through as `0x` plus the original text. -/
def asciiRender (hex_val : String) : String :=
  match int16? hex_val with
  | some v =>
    if 32 ≤ v ∧ v ≤ 126 then String.singleton (Char.ofNat v.toNat)
    else "0x" ++ hex_val
  | none => "0x" ++ hex_val

/-- `hex_to_ascii`: fold the per-byte rendering over the list,
accumulating into a string. -/
def hex_to_ascii (hex_list : List String) : String :=
  hex_list.foldl (fun ascii_str hex_val => ascii_str ++ asciiRender hex_val) ""

/-! ## `generate_descriptions` -/

/-- The address computed inside the `try` block: big-endian combination
`(int(m[1],16) << 16) | (int(m[2],16) << 8) | int(m[3],16)` rendered
`f"0x{address:06X}"`, or `"invalid"` on any `ValueError`.  `<< k` is
multiplication by `2^k` and `|` is `Int.lor`, exactly Python's
two's-complement semantics. -/
def addressString (mosi_row : List String) : String :=
  match int16? (mosi_row.getD 1 ""), int16? (mosi_row.getD 2 ""),
      int16? (mosi_row.getD 3 "") with
  | some a, some b, some c =>
    "0x" ++ formatX 6 (Int.lor (Int.lor (a * 65536) (b * 256)) c)
  | _, _, _ => "invalid"

/-- `generate_descriptions(op_code, mosi_row, miso_row)`.  Returns
`none` exactly where Python would raise a `KeyError` (a command name
missing from `command_info` or `command_descriptions`); list accesses
are `getD` with an irrelevant default since the source guards each one
with a length check.  `if address_str:` is modelled by matching the
option, faithful because both candidate strings are nonempty. -/
def generate_descriptions (op_code : Int) (mosi_row miso_row : List String) :
    Option (String × String) :=
  match commands_get op_code with
  | none => some ("Invalid command: 0x" ++ formatX 2 op_code, "Unknown")
  | some command =>
    match command_info_get command with
    | none => none
    | some info =>
      let command_length := info.command_length
      if mosi_row.length < command_length then
        some (command ++ " command (insufficient bytes)", "Unknown")
      else
        let address_str : Option String :=
          if (command = "READ" ∨ command = "WRITE" ∨ command = "FSTRD")
              ∧ 4 ≤ mosi_row.length then
            some (addressString mosi_row)
          else none
        if command = "WRSR" then
          if 2 ≤ mosi_row.length then
            some ("WRSR: Write Status Register, value: 0x" ++
              mosi_row.getD 1 "", "No data")
          else
            some ("WRSR: Write Status Register (insufficient bytes)",
              "No data")
        else if command = "RDSR" then
          some ("RDSR: Read Status Register",
            if command_length < miso_row.length then
              "Status register: 0x" ++ miso_row.getD command_length ""
            else "No data")
        else if command = "RDID" then
          some ("RDID: Read Device ID",
            if command_length + 4 ≤ miso_row.length then
              "Device ID: " ++ String.intercalate ","
                (((miso_row.drop command_length).take 4).map
                  fun b => "0x" ++ b)
            else "Device ID (insufficient bytes)")
        else if command = "READ" then
          let description_mosi :=
            match address_str with
            | some s => command ++ " command" ++ ", address: " ++ s
            | none => command ++ " command"
          some (description_mosi,
            if command_length < miso_row.length then
              let data := miso_row.drop command_length
              "Data read: " ++ String.intercalate "," data ++
                " (ASCII: " ++ hex_to_ascii data ++ ")"
            else "No data")
        else if command = "WRITE" then
          let description_mosi :=
            match address_str with
            | some s => command ++ " command" ++ ", address: " ++ s
            | none => command ++ " command"
          let description_mosi :=
            if command_length < mosi_row.length then
              let data := mosi_row.drop command_length
              description_mosi ++ ", data: " ++ String.intercalate "," data ++
                " (ASCII: " ++ hex_to_ascii data ++ ")"
            else description_mosi ++ " (no data)"
          some (description_mosi, "No data")
        else if command = "FSTRD" then
          let description_mosi :=
            match address_str with
            | some s => command ++ " command" ++ ", address: " ++ s
            | none => command ++ " command"
          some (description_mosi,
            if command_length < miso_row.length then
              let data := miso_row.drop command_length
              "Data read: " ++ String.intercalate "," data ++
                " (ASCII: " ++ hex_to_ascii data ++ ")"
            else "No data")
        else
          match command_descriptions_get command with
          | some d => some (command ++ ": " ++ d, "No data")
          | none => none

/-! ## `process_pairs` (the row loop) -/

/-- The loop of `process_pairs` on the in-memory row list: rows are
consumed two at a time as (MISO, MOSI); a final unpaired row is
dropped; an empty row in the pair, or an unparseable first MOSI field,
skips the pair; otherwise the described MISO row then the described
MOSI row are emitted.  `none` propagates a `KeyError` from
`generate_descriptions` (which never fires; see totality below). -/
def processPairsRows : List (List String) → Option (List (List String))
  | miso_row :: mosi_row :: rest => do
    let tail ← processPairsRows rest
    if mosi_row.length = 0 ∨ miso_row.length = 0 then
      pure tail
    else
      match int16? (mosi_row.getD 0 "") with
      | none => pure tail
      | some op_code => do
        let d ← generate_descriptions op_code mosi_row miso_row
        pure ((d.2 :: miso_row) :: (d.1 :: mosi_row) :: tail)
  | _ => pure []

/-! ## Helper lemmas -/

/-- The ASCII rendering rule stated from the spec's words: parse the
byte as an integer; on failure render `0x` plus the original text; on a
value in the printable range [32, 126] render the character; otherwise
render `0x` plus the original text. -/
def asciiRenderSpec (b : String) : String :=
  match int16? b with
  | none => "0x" ++ b
  | some v =>
    if 32 ≤ v ∧ v ≤ 126 then String.singleton (Char.ofNat v.toNat)
    else "0x" ++ b

theorem asciiRender_eq_spec (b : String) : asciiRender b = asciiRenderSpec b := by
  unfold asciiRender asciiRenderSpec
  cases int16? b <;> rfl

theorem hex_to_ascii_foldl (l : List String) (s : String) :
    l.foldl (fun a h => a ++ asciiRender h) s = s ++ hex_to_ascii l := by
  induction l generalizing s with
  | nil => simp [hex_to_ascii]
  | cons b t ih =>
    simp only [hex_to_ascii, List.foldl_cons] at *
    rw [ih (s ++ asciiRender b), ih ("" ++ asciiRender b),
      String.empty_append, String.append_assoc]

theorem hex_to_ascii_cons (b : String) (l : List String) :
    hex_to_ascii (b :: l) = asciiRender b ++ hex_to_ascii l := by
  unfold hex_to_ascii
  rw [List.foldl_cons, String.empty_append, hex_to_ascii_foldl]
  rfl

theorem string_join_cons (x : String) (xs : List String) :
    String.join (x :: xs) = x ++ String.join xs := by
  apply String.ext
  simp

theorem hex_to_ascii_eq_join (l : List String) :
    hex_to_ascii l = String.join (l.map asciiRenderSpec) := by
  induction l with
  | nil => rfl
  | cons b t ih =>
    rw [hex_to_ascii_cons, List.map_cons, string_join_cons, ih,
      asciiRender_eq_spec]

theorem addressString_parsed {mosi_row : List String} {a b c : Int}
    (h1 : int16? (mosi_row.getD 1 "") = some a)
    (h2 : int16? (mosi_row.getD 2 "") = some b)
    (h3 : int16? (mosi_row.getD 3 "") = some c) :
    addressString mosi_row =
      "0x" ++ formatX 6 (Int.lor (Int.lor (a * 65536) (b * 256)) c) := by
  unfold addressString
  rw [h1, h2, h3]

theorem addressString_invalid {mosi_row : List String}
    (h : int16? (mosi_row.getD 1 "") = none
      ∨ int16? (mosi_row.getD 2 "") = none
      ∨ int16? (mosi_row.getD 3 "") = none) :
    addressString mosi_row = "invalid" := by
  unfold addressString
  rcases h with h | h | h
  · rw [h]
  · rw [h]
    cases int16? (mosi_row.getD 1 "") <;> rfl
  · rw [h]
    cases int16? (mosi_row.getD 1 "") <;>
      cases int16? (mosi_row.getD 2 "") <;> rfl

theorem describe_invalid {op : Int} (h : commands_get op = none)
    (mosi_row miso_row : List String) :
    generate_descriptions op mosi_row miso_row =
      some ("Invalid command: 0x" ++ formatX 2 op, "Unknown") := by
  unfold generate_descriptions
  rw [h]

theorem describe_insufficient {op : Int} {name : String} {info : CmdInfo}
    (h1 : commands_get op = some name)
    (h2 : command_info_get name = some info)
    {mosi_row : List String} (h : mosi_row.length < info.command_length)
    (miso_row : List String) :
    generate_descriptions op mosi_row miso_row =
      some (name ++ " command (insufficient bytes)", "Unknown") := by
  simp only [generate_descriptions, h1, h2]
  rw [if_pos h]

theorem describe_read {mosi_row : List String} (h : 4 ≤ mosi_row.length)
    (miso_row : List String) :
    generate_descriptions 3 mosi_row miso_row =
      some ("READ command" ++ ", address: " ++ addressString mosi_row,
        if 4 < miso_row.length then
          "Data read: " ++ String.intercalate "," (miso_row.drop 4) ++
            " (ASCII: " ++ hex_to_ascii (miso_row.drop 4) ++ ")"
        else "No data") := by
  unfold generate_descriptions
  simp +decide only [commands_get, command_info_get, reduceIte, true_and,
    false_and]
  rw [if_neg (by omega), if_pos h]
  rfl

theorem describe_write {mosi_row : List String} (h : 4 ≤ mosi_row.length)
    (miso_row : List String) :
    generate_descriptions 2 mosi_row miso_row =
      some (if 4 < mosi_row.length then
          ("WRITE command" ++ ", address: " ++ addressString mosi_row) ++
            ", data: " ++ String.intercalate "," (mosi_row.drop 4) ++
            " (ASCII: " ++ hex_to_ascii (mosi_row.drop 4) ++ ")"
        else
          ("WRITE command" ++ ", address: " ++ addressString mosi_row) ++
            " (no data)", "No data") := by
  unfold generate_descriptions
  simp +decide only [commands_get, command_info_get, reduceIte, true_and,
    false_and]
  rw [if_neg (by omega), if_pos h]
  rfl

theorem describe_fstrd {mosi_row : List String} (h : 5 ≤ mosi_row.length)
    (miso_row : List String) :
    generate_descriptions 11 mosi_row miso_row =
      some ("FSTRD command" ++ ", address: " ++ addressString mosi_row,
        if 5 < miso_row.length then
          "Data read: " ++ String.intercalate "," (miso_row.drop 5) ++
            " (ASCII: " ++ hex_to_ascii (miso_row.drop 5) ++ ")"
        else "No data") := by
  unfold generate_descriptions
  simp +decide only [commands_get, command_info_get, reduceIte, true_and,
    false_and]
  rw [if_neg (by omega), if_pos (by omega)]
  rfl

theorem describe_wrsr {mosi_row : List String} (h : 2 ≤ mosi_row.length)
    (miso_row : List String) :
    generate_descriptions 1 mosi_row miso_row =
      some ("WRSR: Write Status Register, value: 0x" ++ mosi_row.getD 1 "",
        "No data") := by
  unfold generate_descriptions
  simp +decide only [commands_get, command_info_get, reduceIte, true_and,
    false_and]
  rw [if_neg (by omega), if_pos h]

theorem describe_rdid {mosi_row : List String} (h : 1 ≤ mosi_row.length)
    (miso_row : List String) :
    generate_descriptions 159 mosi_row miso_row =
      some ("RDID: Read Device ID",
        if 5 ≤ miso_row.length then
          "Device ID: " ++ String.intercalate ","
            (((miso_row.drop 1).take 4).map fun b => "0x" ++ b)
        else "Device ID (insufficient bytes)") := by
  unfold generate_descriptions
  simp +decide only [commands_get, command_info_get, reduceIte, true_and,
    false_and, Nat.reduceAdd]
  rw [if_neg (by omega)]

/-! ## Claims -/

/-- **C7** (confirmed).  `hex_to_ascii` renders each byte by the rule of
the spec — parse failure or a value outside the printable range [32, 126]
gives `0x` plus the original text, a printable value gives the
character — and concatenates the renderings with no separator; in
particular `"00"` renders as `"0x00"`, `"41"` as `"A"`, and `"7F"` as
`"0x7F"`. -/
theorem c7_ascii_rendering :
    (∀ l : List String, hex_to_ascii l = String.join (l.map asciiRenderSpec))
    ∧ hex_to_ascii ["00"] = "0x00"
    ∧ hex_to_ascii ["41"] = "A"
    ∧ hex_to_ascii ["7F"] = "0x7F" :=
  ⟨hex_to_ascii_eq_join, by decide, by decide, by decide⟩

/-- Instantiation of `c7_ascii_rendering` at a concrete input. -/
theorem c7_ascii_rendering_witness :
    hex_to_ascii ["00", "41"] = String.join (["00", "41"].map asciiRenderSpec) :=
  c7_ascii_rendering.1 ["00", "41"]

/-- **C1** (counterexample).  On the claim's own example — READ with
mosi `["03","00","00","10"]` and miso `["00","00","00","00","41","42"]` —
the miso description is `"Data read: 41,42 (ASCII: AB)"`: the data bytes
are joined raw, without the `0x` prefix the claim asserts. -/
theorem c1_read_data_counterexample :
    (generate_descriptions 3 ["03", "00", "00", "10"]
        ["00", "00", "00", "00", "41", "42"]).map Prod.snd =
      some "Data read: 41,42 (ASCII: AB)" ∧
    "Data read: 41,42 (ASCII: AB)" ≠ "Data read: 0x41,0x42 (ASCII: AB)" :=
  ⟨by decide, by decide⟩

/-- **C1** (amended).  For READ (0x03) and FSTRD (0x0B), whenever
`misoBytes` is longer than the command length (4 resp. 5) the miso
description is `"Data read: <joined> (ASCII: <ascii>)"` where `joined`
joins the raw byte texts from index commandLength onward with commas and
no `0x` prefix; otherwise it is `"No data"`; the claim's example yields
`"Data read: 41,42 (ASCII: AB)"`. -/
theorem c1_read_data_amended :
    (∀ mosi_row miso_row : List String, 4 ≤ mosi_row.length →
      4 < miso_row.length →
      (generate_descriptions 3 mosi_row miso_row).map Prod.snd =
        some ("Data read: " ++ String.intercalate "," (miso_row.drop 4) ++
          " (ASCII: " ++ hex_to_ascii (miso_row.drop 4) ++ ")"))
    ∧ (∀ mosi_row miso_row : List String, 5 ≤ mosi_row.length →
      5 < miso_row.length →
      (generate_descriptions 11 mosi_row miso_row).map Prod.snd =
        some ("Data read: " ++ String.intercalate "," (miso_row.drop 5) ++
          " (ASCII: " ++ hex_to_ascii (miso_row.drop 5) ++ ")"))
    ∧ (∀ mosi_row miso_row : List String, 4 ≤ mosi_row.length →
      miso_row.length ≤ 4 →
      (generate_descriptions 3 mosi_row miso_row).map Prod.snd =
        some "No data")
    ∧ (∀ mosi_row miso_row : List String, 5 ≤ mosi_row.length →
      miso_row.length ≤ 5 →
      (generate_descriptions 11 mosi_row miso_row).map Prod.snd =
        some "No data")
    ∧ (generate_descriptions 3 ["03", "00", "00", "10"]
        ["00", "00", "00", "00", "41", "42"]).map Prod.snd =
      some "Data read: 41,42 (ASCII: AB)" := by
  refine ⟨?_, ?_, ?_, ?_, by decide⟩
  · intro mosi_row miso_row hm hmi
    rw [describe_read hm, Option.map_some']
    simp only [if_pos hmi]
  · intro mosi_row miso_row hm hmi
    rw [describe_fstrd hm, Option.map_some']
    simp only [if_pos hmi]
  · intro mosi_row miso_row hm hmi
    rw [describe_read hm, Option.map_some']
    simp only [if_neg (by omega : ¬ 4 < miso_row.length)]
  · intro mosi_row miso_row hm hmi
    rw [describe_fstrd hm, Option.map_some']
    simp only [if_neg (by omega : ¬ 5 < miso_row.length)]

/-- Instantiation of `c1_read_data_amended` at a concrete input. -/
theorem c1_read_data_amended_witness :
    (generate_descriptions 3 ["03", "00", "00", "10"]
        ["00", "00", "00", "00", "41"]).map Prod.snd =
      some ("Data read: " ++
        String.intercalate "," (["00", "00", "00", "00", "41"].drop 4) ++
        " (ASCII: " ++ hex_to_ascii (["00", "00", "00", "00", "41"].drop 4) ++
        ")") :=
  c1_read_data_amended.1 ["03", "00", "00", "10"] ["00", "00", "00", "00", "41"]
    (by decide) (by decide)

/-- **C2** (counterexample).  For RDID with miso
`["00","13","14","5E","01"]` the four listed device-ID bytes start at
index 1, so the description is `"Device ID: 0x13,0x14,0x5E,0x01"` — it
does not begin with `"Device ID: 0x14"` as the claim's example says. -/
theorem c2_rdid_counterexample :
    (generate_descriptions 159 ["9F"] ["00", "13", "14", "5E", "01"]).map
        Prod.snd = some "Device ID: 0x13,0x14,0x5E,0x01" ∧
    ("Device ID: 0x14".data.isPrefixOf "Device ID: 0x13,0x14,0x5E,0x01".data)
      = false :=
  ⟨by decide, by decide⟩

/-- **C2** (amended).  For RDID (0x9F) the mosi description is
`"RDID: Read Device ID"`; with at least commandLength + 4 = 5 miso bytes
the miso description lists exactly the 4 bytes starting at index 1, each
as `0x` plus its raw text, comma-joined — so for miso
`["00","13","14","5E","01"]` the listed bytes begin `0x13,0x14,0x5E` —
and with fewer the miso description is
`"Device ID (insufficient bytes)"`. -/
theorem c2_rdid_amended :
    (∀ mosi_row miso_row : List String, 1 ≤ mosi_row.length →
      (generate_descriptions 159 mosi_row miso_row).map Prod.fst =
        some "RDID: Read Device ID"
      ∧ (5 ≤ miso_row.length →
        (generate_descriptions 159 mosi_row miso_row).map Prod.snd =
          some ("Device ID: " ++ String.intercalate ","
            (((miso_row.drop 1).take 4).map fun b => "0x" ++ b)))
      ∧ (miso_row.length < 5 →
        (generate_descriptions 159 mosi_row miso_row).map Prod.snd =
          some "Device ID (insufficient bytes)"))
    ∧ (generate_descriptions 159 ["9F"] ["00", "13", "14", "5E", "01"]).map
        Prod.snd = some "Device ID: 0x13,0x14,0x5E,0x01" := by
  refine ⟨?_, by decide⟩
  intro mosi_row miso_row hm
  rw [describe_rdid hm]
  refine ⟨by rw [Option.map_some'], fun hmi => ?_, fun hmi => ?_⟩
  · rw [Option.map_some']
    simp only [if_pos hmi]
  · rw [Option.map_some']
    simp only [if_neg (by omega : ¬ 5 ≤ miso_row.length)]

/-- Instantiation of `c2_rdid_amended` at a concrete input. -/
theorem c2_rdid_amended_witness :
    (generate_descriptions 159 ["9F"] ["00", "13", "14"]).map Prod.fst =
      some "RDID: Read Device ID" ∧
    (generate_descriptions 159 ["9F"] ["00", "13", "14"]).map Prod.snd =
      some "Device ID (insufficient bytes)" := by
  have h := c2_rdid_amended.1 ["9F"] ["00", "13", "14"] (by decide)
  exact ⟨h.1, h.2.2 (by decide)⟩

/-- **C3** (counterexample).  For WRSR with the single mosi byte
`["01"]`, the length guard `len(mosiBytes) < commandLength` (= 2) fires
first, so the result is `("WRSR command (insufficient bytes)",
"Unknown")` — not the claimed `"WRSR: Write Status Register
(insufficient bytes)"` with `"No data"`. -/
theorem c3_wrsr_counterexample :
    generate_descriptions 1 ["01"] [] =
      some ("WRSR command (insufficient bytes)", "Unknown") ∧
    ("WRSR command (insufficient bytes)", "Unknown") ≠
      ("WRSR: Write Status Register (insufficient bytes)", "No data") :=
  ⟨by decide, by decide⟩

/-- **C3** (amended).  For WRSR (0x01): with at least 2 mosi bytes the
result is `("WRSR: Write Status Register, value: 0x<mosiBytes[1]>",
"No data")` (e.g. `["01","80"]` gives value `0x80`); with fewer than 2
mosi bytes the generic insufficiency guard fires first and the result is
`("WRSR command (insufficient bytes)", "Unknown")` — the dedicated WRSR
insufficient-bytes branch is unreachable. -/
theorem c3_wrsr_amended :
    (∀ mosi_row miso_row : List String, 2 ≤ mosi_row.length →
      generate_descriptions 1 mosi_row miso_row =
        some ("WRSR: Write Status Register, value: 0x" ++ mosi_row.getD 1 "",
          "No data"))
    ∧ (∀ mosi_row miso_row : List String, mosi_row.length < 2 →
      generate_descriptions 1 mosi_row miso_row =
        some ("WRSR command (insufficient bytes)", "Unknown"))
    ∧ generate_descriptions 1 ["01", "80"] [] =
        some ("WRSR: Write Status Register, value: 0x80", "No data") := by
  refine ⟨fun mosi_row miso_row h => describe_wrsr h miso_row,
    fun mosi_row miso_row h =>
      describe_insufficient (show commands_get 1 = some "WRSR" by decide)
        (show command_info_get "WRSR" = some ⟨2, false, false⟩ by decide)
        h miso_row, by decide⟩

/-- Instantiation of `c3_wrsr_amended` at a concrete input. -/
theorem c3_wrsr_amended_witness :
    generate_descriptions 1 ["01", "80"] ["00", "00"] =
      some ("WRSR: Write Status Register, value: 0x" ++
        ["01", "80"].getD 1 "", "No data") :=
  c3_wrsr_amended.1 ["01", "80"] ["00", "00"] (by decide)

set_option maxRecDepth 4096 in
theorem formatX2_byte (n : Nat) (h : n < 256) :
    (formatX 2 (n : Int)).length = 2 ∧
    ∀ ch ∈ (formatX 2 (n : Int)).data, ch ∈ "0123456789ABCDEF".data := by
  revert n
  decide

/-- **C4** (confirmed).  For every byte-valued op-code outside the
9-entry command table, `generate_descriptions` returns
`("Invalid command: 0x<opcode>", "Unknown")` for all mosi/miso rows,
raising nothing, with the op-code rendered by Python's `02X` format —
which for a byte is exactly 2 uppercase hex digits. -/
theorem c4_invalid_command (op : Int) (h0 : 0 ≤ op) (h256 : op < 256)
    (hnone : commands_get op = none) (mosi_row miso_row : List String) :
    generate_descriptions op mosi_row miso_row =
      some ("Invalid command: 0x" ++ formatX 2 op, "Unknown")
    ∧ (formatX 2 op).length = 2
    ∧ ∀ ch ∈ (formatX 2 op).data, ch ∈ "0123456789ABCDEF".data := by
  obtain ⟨n, rfl⟩ : ∃ n : Nat, op = (n : Int) :=
    ⟨op.toNat, (Int.toNat_of_nonneg h0).symm⟩
  have hn : n < 256 := by exact_mod_cast h256
  exact ⟨describe_invalid hnone mosi_row miso_row, (formatX2_byte n hn).1,
    (formatX2_byte n hn).2⟩

/-- Instantiation of `c4_invalid_command` at op-code `0x07`. -/
theorem c4_invalid_command_witness :
    generate_descriptions 7 ["07"] [] =
      some ("Invalid command: 0x" ++ formatX 2 7, "Unknown")
    ∧ (formatX 2 7).length = 2
    ∧ ∀ ch ∈ (formatX 2 7).data, ch ∈ "0123456789ABCDEF".data :=
  c4_invalid_command 7 (by decide) (by decide) (by decide) ["07"] []

/-- **C5** (confirmed).  For every op-code in the command table, when
`mosiBytes` is shorter than the command's length the decoder returns
`("<name> command (insufficient bytes)", "Unknown")` regardless of the
miso bytes; the table lengths are 1 for WREN/WRDI/SLEEP/RDSR/RDID, 2 for
WRSR, 4 for READ/WRITE and 5 for FSTRD. -/
theorem c5_insufficient_bytes :
    (∀ (op : Int) (name : String) (info : CmdInfo)
      (mosi_row miso_row : List String),
      commands_get op = some name → command_info_get name = some info →
      mosi_row.length < info.command_length →
      generate_descriptions op mosi_row miso_row =
        some (name ++ " command (insufficient bytes)", "Unknown"))
    ∧ (command_info_get "WREN").map CmdInfo.command_length = some 1
    ∧ (command_info_get "WRDI").map CmdInfo.command_length = some 1
    ∧ (command_info_get "SLEEP").map CmdInfo.command_length = some 1
    ∧ (command_info_get "RDSR").map CmdInfo.command_length = some 1
    ∧ (command_info_get "RDID").map CmdInfo.command_length = some 1
    ∧ (command_info_get "WRSR").map CmdInfo.command_length = some 2
    ∧ (command_info_get "READ").map CmdInfo.command_length = some 4
    ∧ (command_info_get "WRITE").map CmdInfo.command_length = some 4
    ∧ (command_info_get "FSTRD").map CmdInfo.command_length = some 5 :=
  ⟨fun _ _ _ _ miso_row h1 h2 h => describe_insufficient h1 h2 h miso_row,
    by decide, by decide, by decide, by decide, by decide, by decide,
    by decide, by decide, by decide⟩

/-- Instantiation of `c5_insufficient_bytes` at READ with 3 mosi bytes. -/
theorem c5_insufficient_bytes_witness :
    generate_descriptions 3 ["03", "00", "00"] ["00"] =
      some ("READ command (insufficient bytes)", "Unknown") :=
  c5_insufficient_bytes.1 3 "READ" ⟨4, true, false⟩ ["03", "00", "00"] ["00"]
    (by decide) (by decide) (by decide)

/-- **C6** (counterexample).  FSTRD has commandLength 5, so with exactly
4 mosi bytes — even though all three address bytes parse — the decoder
returns `"FSTRD command (insufficient bytes)"`, which contains no
`", address:"` substring, contradicting the claim's "at least 4 mosi
bytes" condition. -/
theorem c6_address_counterexample :
    generate_descriptions 11 ["0B", "00", "00", "10"] [] =
      some ("FSTRD command (insufficient bytes)", "Unknown") ∧
    ¬ (", address:".data <:+: "FSTRD command (insufficient bytes)".data) :=
  ⟨by decide, by decide⟩

/-- **C6** (amended).  For READ, WRITE and FSTRD, whenever at least
commandLength mosi bytes are present (4 for READ and WRITE, 5 for FSTRD)
and `mosiBytes[1..3]` all parse as hex integers, the mosi description
continues `", address: 0x<A>"` after `"<name> command"`, where A is
`(b1 << 16) | (b2 << 8) | b3` zero-padded to 6 uppercase hex digits; if
any of those bytes fails to parse the appended address string is
`"invalid"`; with fewer than 4 mosi bytes the description is
`"<name> command (insufficient bytes)"` with no address appended. -/
theorem c6_address_amended :
    (∀ (mosi_row miso_row : List String) (v1 v2 v3 : Int),
      4 ≤ mosi_row.length →
      int16? (mosi_row.getD 1 "") = some v1 →
      int16? (mosi_row.getD 2 "") = some v2 →
      int16? (mosi_row.getD 3 "") = some v3 →
      ∃ r, (generate_descriptions 3 mosi_row miso_row).map Prod.fst =
        some ("READ command, address: 0x" ++
          formatX 6 (Int.lor (Int.lor (v1 * 65536) (v2 * 256)) v3) ++ r))
    ∧ (∀ (mosi_row miso_row : List String) (v1 v2 v3 : Int),
      4 ≤ mosi_row.length →
      int16? (mosi_row.getD 1 "") = some v1 →
      int16? (mosi_row.getD 2 "") = some v2 →
      int16? (mosi_row.getD 3 "") = some v3 →
      ∃ r, (generate_descriptions 2 mosi_row miso_row).map Prod.fst =
        some ("WRITE command, address: 0x" ++
          formatX 6 (Int.lor (Int.lor (v1 * 65536) (v2 * 256)) v3) ++ r))
    ∧ (∀ (mosi_row miso_row : List String) (v1 v2 v3 : Int),
      5 ≤ mosi_row.length →
      int16? (mosi_row.getD 1 "") = some v1 →
      int16? (mosi_row.getD 2 "") = some v2 →
      int16? (mosi_row.getD 3 "") = some v3 →
      ∃ r, (generate_descriptions 11 mosi_row miso_row).map Prod.fst =
        some ("FSTRD command, address: 0x" ++
          formatX 6 (Int.lor (Int.lor (v1 * 65536) (v2 * 256)) v3) ++ r))
    ∧ (∀ mosi_row miso_row : List String, 4 ≤ mosi_row.length →
      (int16? (mosi_row.getD 1 "") = none
        ∨ int16? (mosi_row.getD 2 "") = none
        ∨ int16? (mosi_row.getD 3 "") = none) →
      ∃ r, (generate_descriptions 3 mosi_row miso_row).map Prod.fst =
        some ("READ command, address: invalid" ++ r))
    ∧ (∀ mosi_row miso_row : List String, 4 ≤ mosi_row.length →
      (int16? (mosi_row.getD 1 "") = none
        ∨ int16? (mosi_row.getD 2 "") = none
        ∨ int16? (mosi_row.getD 3 "") = none) →
      ∃ r, (generate_descriptions 2 mosi_row miso_row).map Prod.fst =
        some ("WRITE command, address: invalid" ++ r))
    ∧ (∀ mosi_row miso_row : List String, 5 ≤ mosi_row.length →
      (int16? (mosi_row.getD 1 "") = none
        ∨ int16? (mosi_row.getD 2 "") = none
        ∨ int16? (mosi_row.getD 3 "") = none) →
      ∃ r, (generate_descriptions 11 mosi_row miso_row).map Prod.fst =
        some ("FSTRD command, address: invalid" ++ r))
    ∧ (∀ mosi_row miso_row : List String, mosi_row.length < 4 →
      (generate_descriptions 3 mosi_row miso_row).map Prod.fst =
        some "READ command (insufficient bytes)")
    ∧ (∀ mosi_row miso_row : List String, mosi_row.length < 4 →
      (generate_descriptions 2 mosi_row miso_row).map Prod.fst =
        some "WRITE command (insufficient bytes)")
    ∧ (∀ mosi_row miso_row : List String, mosi_row.length < 4 →
      (generate_descriptions 11 mosi_row miso_row).map Prod.fst =
        some "FSTRD command (insufficient bytes)") := by
  refine ⟨?_, ?_, ?_, ?_, ?_, ?_, ?_, ?_, ?_⟩
  · intro mosi_row miso_row v1 v2 v3 h h1 h2 h3
    refine ⟨"", ?_⟩
    rw [describe_read h, Option.map_some', addressString_parsed h1 h2 h3]
    simp only [← String.append_assoc, String.append_empty]
    rfl
  · intro mosi_row miso_row v1 v2 v3 h h1 h2 h3
    by_cases hl : 4 < mosi_row.length
    · refine ⟨", data: " ++ String.intercalate "," (mosi_row.drop 4) ++
        " (ASCII: " ++ hex_to_ascii (mosi_row.drop 4) ++ ")", ?_⟩
      rw [describe_write h, Option.map_some']
      simp only [if_pos hl]
      rw [addressString_parsed h1 h2 h3]
      simp only [← String.append_assoc]
      rfl
    · refine ⟨" (no data)", ?_⟩
      rw [describe_write h, Option.map_some']
      simp only [if_neg hl]
      rw [addressString_parsed h1 h2 h3]
      simp only [← String.append_assoc]
      rfl
  · intro mosi_row miso_row v1 v2 v3 h h1 h2 h3
    refine ⟨"", ?_⟩
    rw [describe_fstrd h, Option.map_some', addressString_parsed h1 h2 h3]
    simp only [← String.append_assoc, String.append_empty]
    rfl
  · intro mosi_row miso_row h hfail
    refine ⟨"", ?_⟩
    rw [describe_read h, Option.map_some', addressString_invalid hfail]
    simp only [← String.append_assoc, String.append_empty]
    rfl
  · intro mosi_row miso_row h hfail
    by_cases hl : 4 < mosi_row.length
    · refine ⟨", data: " ++ String.intercalate "," (mosi_row.drop 4) ++
        " (ASCII: " ++ hex_to_ascii (mosi_row.drop 4) ++ ")", ?_⟩
      rw [describe_write h, Option.map_some']
      simp only [if_pos hl]
      rw [addressString_invalid hfail]
      simp only [← String.append_assoc]
      rfl
    · refine ⟨" (no data)", ?_⟩
      rw [describe_write h, Option.map_some']
      simp only [if_neg hl]
      rw [addressString_invalid hfail]
      rfl
  · intro mosi_row miso_row h hfail
    refine ⟨"", ?_⟩
    rw [describe_fstrd h, Option.map_some', addressString_invalid hfail]
    simp only [← String.append_assoc, String.append_empty]
    rfl
  · intro mosi_row miso_row h
    rw [describe_insufficient (show commands_get 3 = some "READ" by decide)
      (show command_info_get "READ" = some ⟨4, true, false⟩ by decide)
      h miso_row, Option.map_some']
    rfl
  · intro mosi_row miso_row h
    rw [describe_insufficient (show commands_get 2 = some "WRITE" by decide)
      (show command_info_get "WRITE" = some ⟨4, false, true⟩ by decide)
      h miso_row, Option.map_some']
    rfl
  · intro mosi_row miso_row h
    rw [describe_insufficient (show commands_get 11 = some "FSTRD" by decide)
      (show command_info_get "FSTRD" = some ⟨5, true, false⟩ by decide)
      (show mosi_row.length < (5 : Nat) by omega) miso_row, Option.map_some']
    rfl

/-- Instantiation of `c6_address_amended` at the spec's READ example. -/
theorem c6_address_amended_witness :
    ∃ r, (generate_descriptions 3 ["03", "00", "00", "10"] []).map Prod.fst =
      some ("READ command, address: 0x" ++
        formatX 6 (Int.lor (Int.lor ((0 : Int) * 65536) ((0 : Int) * 256))
          (16 : Int)) ++ r) :=
  c6_address_amended.1 ["03", "00", "00", "10"] [] 0 0 16 (by decide)
    (by decide) (by decide) (by decide)

theorem processPairsRows_append_single :
    ∀ (rows : List (List String)) (r : List String), rows.length % 2 = 0 →
      processPairsRows (rows ++ [r]) = processPairsRows rows := by
  suffices h : ∀ (n : Nat) (rows : List (List String)) (r : List String),
      rows.length ≤ n → rows.length % 2 = 0 →
      processPairsRows (rows ++ [r]) = processPairsRows rows from
    fun rows r => h rows.length rows r le_rfl
  intro n
  induction n with
  | zero =>
    intro rows r hle _
    obtain rfl : rows = [] := List.length_eq_zero.mp (Nat.le_zero.mp hle)
    rfl
  | succ n ih =>
    intro rows r hle hmod
    rcases rows with _ | ⟨a, _ | ⟨b, rest⟩⟩
    · rfl
    · simp at hmod
    · have h1 : rest.length ≤ n := by
        simp only [List.length_cons] at hle; omega
      have h2 : rest.length % 2 = 0 := by
        simp only [List.length_cons] at hmod; omega
      show processPairsRows (a :: b :: (rest ++ [r])) =
        processPairsRows (a :: b :: rest)
      simp only [processPairsRows]
      rw [ih rest r h1 h2]

/-- **C8** (confirmed).  The pairs loop consumes rows two at a time as
(MISO, MOSI): an unpaired trailing row is dropped; a pair with an empty
row, or whose MOSI first field fails to parse as hex, emits nothing
while the rest is still processed; every other pair emits exactly
`[misoDescription] ++ misoRow` then `[mosiDescription] ++ mosiRow`, in
order, before the output of the remaining rows. -/
theorem c8_pairs_loop :
    processPairsRows [] = some []
    ∧ (∀ r : List String, processPairsRows [r] = some [])
    ∧ (∀ (rows : List (List String)) (r : List String),
      rows.length % 2 = 0 →
      processPairsRows (rows ++ [r]) = processPairsRows rows)
    ∧ (∀ (miso_row mosi_row : List String) (rest : List (List String)),
      mosi_row = [] ∨ miso_row = [] →
      processPairsRows (miso_row :: mosi_row :: rest) = processPairsRows rest)
    ∧ (∀ (miso_row mosi_row : List String) (rest : List (List String)),
      mosi_row ≠ [] → miso_row ≠ [] →
      int16? (mosi_row.getD 0 "") = none →
      processPairsRows (miso_row :: mosi_row :: rest) = processPairsRows rest)
    ∧ (∀ (miso_row mosi_row : List String) (rest : List (List String))
      (op_code : Int) (dm dmi : String) (tail : List (List String)),
      mosi_row ≠ [] → miso_row ≠ [] →
      int16? (mosi_row.getD 0 "") = some op_code →
      generate_descriptions op_code mosi_row miso_row = some (dm, dmi) →
      processPairsRows rest = some tail →
      processPairsRows (miso_row :: mosi_row :: rest) =
        some ((dmi :: miso_row) :: (dm :: mosi_row) :: tail)) := by
  refine ⟨rfl, fun r => rfl, processPairsRows_append_single, ?_, ?_, ?_⟩
  · intro miso_row mosi_row rest h
    cases hrest : processPairsRows rest with
    | none =>
      rcases h with rfl | rfl <;> simp [processPairsRows, hrest]
    | some tail =>
      rcases h with rfl | rfl <;> simp [processPairsRows, hrest]
  · intro miso_row mosi_row rest hm hmi hint
    simp only [List.getD_eq_getElem?_getD] at hint
    cases hrest : processPairsRows rest with
    | none => simp [processPairsRows, hrest]
    | some tail => simp [processPairsRows, hrest, hm, hmi, hint]
  · intro miso_row mosi_row rest op_code dm dmi tail hm hmi hint hdesc hrest
    simp only [List.getD_eq_getElem?_getD] at hint
    simp [processPairsRows, hrest, hm, hmi, hint, hdesc]

/-- Instantiation of `c8_pairs_loop` at concrete inputs: an RDSR pair
preceded by a skipped bad-hex pair, and a dropped trailing row. -/
theorem c8_pairs_loop_witness :
    processPairsRows [["a"], ["ZZ", "1"], ["00", "4D"], ["05"]] =
      some [["Status register: 0x4D", "00", "4D"],
        ["RDSR: Read Status Register", "05"]]
    ∧ processPairsRows [["00", "4D"], ["05"], ["x"]] =
      some [["Status register: 0x4D", "00", "4D"],
        ["RDSR: Read Status Register", "05"]] := by
  constructor
  · rw [c8_pairs_loop.2.2.2.2.1 ["a"] ["ZZ", "1"] _ (by decide) (by decide)
      (by decide)]
    exact c8_pairs_loop.2.2.2.2.2 ["00", "4D"] ["05"] [] 5
      "RDSR: Read Status Register" "Status register: 0x4D" [] (by decide)
      (by decide) (by decide) (by decide) rfl
  · rw [show ([["00", "4D"], ["05"], ["x"]] : List (List String)) =
      [["00", "4D"], ["05"]] ++ [["x"]] from rfl,
      c8_pairs_loop.2.2.1 [["00", "4D"], ["05"]] ["x"] (by decide)]
    exact c8_pairs_loop.2.2.2.2.2 ["00", "4D"] ["05"] [] 5
      "RDSR: Read Status Register" "Status register: 0x4D" [] (by decide)
      (by decide) (by decide) (by decide) rfl

/-- **C9** (confirmed).  `generate_descriptions` is total: for every
integer op-code and all mosi/miso rows it returns a description pair —
the `none` results that model Python `KeyError`s are never produced,
every hex-parse failure being absorbed by `addressString` /
`asciiRender` and every list access guarded by a length check. -/
theorem c9_describe_total (op_code : Int) (mosi_row miso_row : List String) :
    (generate_descriptions op_code mosi_row miso_row).isSome = true := by
  unfold generate_descriptions
  cases hc : commands_get op_code with
  | none => rfl
  | some name =>
    have hname : name = "WREN" ∨ name = "WRDI" ∨ name = "SLEEP"
        ∨ name = "RDSR" ∨ name = "WRSR" ∨ name = "RDID" ∨ name = "READ"
        ∨ name = "WRITE" ∨ name = "FSTRD" := by
      unfold commands_get at hc
      repeat' split at hc
      all_goals simp_all
    rcases hname with rfl | rfl | rfl | rfl | rfl | rfl | rfl | rfl | rfl <;>
      · simp +decide only [command_info_get, command_descriptions_get,
          reduceIte, true_and, false_and]
        repeat' split
        all_goals rfl

/-- **C10** (confirmed).  The op-code parse of the pairs loop is
Python's `int(s, 16)`: it accepts a `0x`/`0X` prefix, surrounding
whitespace, a leading sign and more than two digits, so `"0x03"` and
`" 03 "` decode as READ instead of being skipped, while `"1FF"` and
`"-1"` give op-codes outside 0..255 that take the invalid-command path
instead of skipping the pair. -/
theorem c10_opcode_parse_tolerance :
    int16? "0x03" = some 3 ∧ int16? "0X03" = some 3 ∧ int16? " 03 " = some 3
    ∧ int16? "+3" = some 3 ∧ int16? "1FF" = some 511
    ∧ int16? "-1" = some (-1)
    ∧ commands_get 511 = none ∧ commands_get (-1) = none
    ∧ processPairsRows [["00", "00", "00", "00", "41"],
        ["0x03", "00", "00", "10"]] =
      some [["Data read: 41 (ASCII: A)", "00", "00", "00", "00", "41"],
        ["READ command, address: 0x000010", "0x03", "00", "00", "10"]]
    ∧ processPairsRows [["00"], [" 03 "]] =
      some [["Unknown", "00"], ["READ command (insufficient bytes)", " 03 "]]
    ∧ processPairsRows [["00"], ["1FF"]] =
      some [["Unknown", "00"], ["Invalid command: 0x1FF", "1FF"]]
    ∧ processPairsRows [["00"], ["-1"]] =
      some [["Unknown", "00"], ["Invalid command: 0x-1", "-1"]] := by
  refine ⟨by decide, by decide, by decide, by decide, by decide, by decide,
    by decide, by decide, by decide, by decide, by decide, by decide⟩

end FRAM
